import Mathlib

/-!
Verification of the jadetrade signal-pipeline core against its
natural-language specification.

The Python source is shallowly embedded: `Decimal` values become `ℚ`
(the source mandates exact decimal arithmetic throughout), Python ints
become `ℕ`, `Optional[T]` becomes `Option T`, and the Redis-backed queue
becomes explicit state passing over a `RedisState` record.  Interpolated
reason/warning strings of the risk manager are abstracted into inductive
tags carrying the interpolated numeric payloads.
-/

set_option autoImplicit false

namespace JadeTrade

/-! ## Embedding of `app/core/risk_manager.py` -/

/-- `RiskSettings` dataclass: the user's risk management settings. -/
structure RiskSettings where
  max_position_size_usd : ℚ := 1000
  max_leverage : ℕ := 10
  max_open_positions : ℕ := 5
  max_daily_trades : ℕ := 50
  max_daily_loss_percent : ℚ := 10
  max_portfolio_exposure_percent : ℚ := 80
  default_risk_per_trade_percent : ℚ := 2
  require_stop_loss : Bool := true
  deriving Repr, DecidableEq

/-- The dataclass defaults of `RiskSettings`. -/
def defaultRiskSettings : RiskSettings := {}

/-- Warning strings appended by `check_trade`, abstracted to a tag with the
interpolated numbers (`"Position size reduced from $... to $..."`). -/
inductive RiskWarning where
  | positionSizeReduced (fromUsd toUsd : ℚ)
  deriving Repr, DecidableEq

/-- Rejection reason strings of `check_trade`, abstracted to tags; the
portfolio-exposure reason carries the interpolated exposure percentage. -/
inductive RejectReason where
  | dailyLoss
  | dailyTrades
  | openPositions
  | leverageTooHigh
  | portfolioExposure (pct : ℚ)
  | stopLossRequired
  deriving Repr, DecidableEq

/-- `RiskCheckResult` dataclass. -/
structure RiskCheckResult where
  passed : Bool
  reason : Option RejectReason := none
  adjusted_quantity : Option ℚ := none
  warnings : Option (List RiskWarning) := none
  deriving Repr, DecidableEq

/-- `TradeRequest` dataclass. -/
structure TradeRequest where
  user_id : String
  symbol : String
  side : String
  quantity : ℚ
  entry_price : ℚ
  stop_loss : Option ℚ := none
  take_profit : Option ℚ := none
  leverage : ℕ := 1
  deriving Repr, DecidableEq

/-- `PortfolioState` dataclass. -/
structure PortfolioState where
  total_balance_usd : ℚ
  open_positions_count : ℕ
  open_positions_value_usd : ℚ
  daily_trades_count : ℕ
  daily_pnl_percent : ℚ
  daily_loss_percent : ℚ
  deriving Repr, DecidableEq

/-- `RiskManager.check_trade`, embedded statement by statement.  Python
passes `trade` and `portfolio` by reference, so the embedding threads them
explicitly: the result triple carries the `RiskCheckResult` returned by the
method together with the caller-visible `TradeRequest` and `PortfolioState`
at the moment of return (the method body contains no assignment to either,
so every return site yields the arguments it received). -/
def check_trade_full (S : RiskSettings) (trade : TradeRequest)
    (portfolio : PortfolioState) :
    RiskCheckResult × TradeRequest × PortfolioState :=
  let warnings : List RiskWarning := []
  -- Check 1: Daily loss limit
  if portfolio.daily_loss_percent ≥ S.max_daily_loss_percent then
    ({ passed := false, reason := some .dailyLoss }, trade, portfolio)
  -- Check 2: Daily trade count
  else if portfolio.daily_trades_count ≥ S.max_daily_trades then
    ({ passed := false, reason := some .dailyTrades }, trade, portfolio)
  -- Check 3: Open positions count
  else if portfolio.open_positions_count ≥ S.max_open_positions then
    ({ passed := false, reason := some .openPositions }, trade, portfolio)
  -- Check 4: Leverage limit
  else if trade.leverage > S.max_leverage then
    ({ passed := false, reason := some .leverageTooHigh }, trade, portfolio)
  else
    -- Check 5: Position size
    let position_value_usd := trade.quantity * trade.entry_price
    if position_value_usd > S.max_position_size_usd then
      let adjusted_qty := S.max_position_size_usd / trade.entry_price
      ({ passed := true,
         adjusted_quantity := some adjusted_qty,
         warnings := some (warnings ++
           [.positionSizeReduced position_value_usd S.max_position_size_usd]) },
       trade, portfolio)
    else
      -- Check 6: Portfolio exposure
      let new_exposure := portfolio.open_positions_value_usd + position_value_usd
      let exposure_percent :=
        if portfolio.total_balance_usd > 0 then
          new_exposure / portfolio.total_balance_usd * 100
        else (100 : ℚ)
      if exposure_percent > S.max_portfolio_exposure_percent then
        ({ passed := false, reason := some (.portfolioExposure exposure_percent) },
         trade, portfolio)
      -- Check 7: Stop loss required
      else if S.require_stop_loss ∧ trade.stop_loss = none then
        ({ passed := false, reason := some .stopLossRequired }, trade, portfolio)
      else
        -- All checks passed
        ({ passed := true,
           warnings := if warnings = [] then none else some warnings },
         trade, portfolio)

/-- The `RiskCheckResult` returned by `check_trade`. -/
def check_trade (S : RiskSettings) (trade : TradeRequest)
    (portfolio : PortfolioState) : RiskCheckResult :=
  (check_trade_full S trade portfolio).1

/-- `RiskManager.calculate_position_size`.  Python's
`risk_percent or self.settings.default_risk_per_trade_percent` falls back to
the default when `risk_percent` is `None` or a falsy (zero) decimal. -/
def calculate_position_size (S : RiskSettings) (balance_usd entry_price
    stop_loss : ℚ) (risk_percent : Option ℚ) : ℚ :=
  let risk := match risk_percent with
    | some r => if r = 0 then S.default_risk_per_trade_percent else r
    | none => S.default_risk_per_trade_percent
  let risk_amount := balance_usd * (risk / 100)
  let stop_distance := |entry_price - stop_loss|
  if stop_distance = 0 then 0
  else
    let position_size := risk_amount / stop_distance
    let max_qty := S.max_position_size_usd / entry_price
    min position_size max_qty

/-! ## Specification model of the risk-check rule order (for C1)

A second definition, written from the specification's words rather than the
source: the seven rules are evaluated in the fixed order daily-loss,
daily-trade-count, open-positions-count, leverage, position-size,
portfolio-exposure, stop-loss-required, and the first failing rule's
rejection is returned; the position-size rule is the exception, producing an
immediate acceptance with an adjusted quantity and a warning, skipping the
remaining rules. -/

/-- Outcome of a single risk rule in the specification model. -/
inductive RuleOutcome where
  | pass
  | reject (r : RejectReason)
  | adjustAccept (q : ℚ) (w : RiskWarning)
  deriving Repr, DecidableEq

/-- The seven rules of §4.B in their fixed order, as individual functions
of the trade and portfolio. -/
def ruleAt (S : RiskSettings) (trade : TradeRequest)
    (portfolio : PortfolioState) : ℕ → RuleOutcome
  | 0 =>
    if portfolio.daily_loss_percent ≥ S.max_daily_loss_percent then
      .reject .dailyLoss
    else .pass
  | 1 =>
    if portfolio.daily_trades_count ≥ S.max_daily_trades then
      .reject .dailyTrades
    else .pass
  | 2 =>
    if portfolio.open_positions_count ≥ S.max_open_positions then
      .reject .openPositions
    else .pass
  | 3 =>
    if trade.leverage > S.max_leverage then .reject .leverageTooHigh
    else .pass
  | 4 =>
    if trade.quantity * trade.entry_price > S.max_position_size_usd then
      .adjustAccept (S.max_position_size_usd / trade.entry_price)
        (.positionSizeReduced (trade.quantity * trade.entry_price)
          S.max_position_size_usd)
    else .pass
  | 5 =>
    let exposure :=
      if portfolio.total_balance_usd > 0 then
        (portfolio.open_positions_value_usd +
          trade.quantity * trade.entry_price) /
          portfolio.total_balance_usd * 100
      else (100 : ℚ)
    if exposure > S.max_portfolio_exposure_percent then
      .reject (.portfolioExposure exposure)
    else .pass
  | 6 =>
    if S.require_stop_loss ∧ trade.stop_loss = none then
      .reject .stopLossRequired
    else .pass
  | _ => .pass

/-- Evaluate rules in the given order, returning the first failing check;
the size-adjustment rule accepts immediately, skipping the rest. -/
def firstFailing (S : RiskSettings) (trade : TradeRequest)
    (portfolio : PortfolioState) : List ℕ → RiskCheckResult
  | [] => { passed := true }
  | i :: rest =>
    match ruleAt S trade portfolio i with
    | .pass => firstFailing S trade portfolio rest
    | .reject r => { passed := false, reason := some r }
    | .adjustAccept q w =>
      { passed := true, adjusted_quantity := some q, warnings := some [w] }

/-- The specification's description of `check_trade`: rules in fixed order,
first failure short-circuits, size adjustment accepts immediately. -/
def check_trade_spec (S : RiskSettings) (trade : TradeRequest)
    (portfolio : PortfolioState) : RiskCheckResult :=
  firstFailing S trade portfolio [0, 1, 2, 3, 4, 5, 6]

/-! ## Embedding of `app/core/queue.py`

The Redis keyspace is modelled explicitly: the `signals:queue` sorted set as
an association list of member/score pairs, the `signals:processing` set and
`signals:dead_letter` list as lists, the per-signal `signal:<id>` body keys
and the `dedup:<key>` markers as association lists keyed by the id or dedup
key.  Scores (`priority * 1e12 + epoch-seconds timestamps`) are rationals;
key TTLs are abstracted away (a marker present in the map is one that has
not yet expired). -/

/-- `QueuePriority` values. -/
def QueuePriorityHIGH : ℕ := 0

/-- `QueuePriority.NORMAL`. -/
def QueuePriorityNORMAL : ℕ := 1

/-- `QueuePriority.LOW`. -/
def QueuePriorityLOW : ℕ := 2

/-! ### IEEE-754 rounding of the enqueue score

`enqueue` computes `score = signal.priority * 1e12 + timestamp` in Python
floats (IEEE-754 binary64), and that double is what `ZADD` stores and Redis
orders.  Both operands are exactly representable (`p * 1e12` for
`p ∈ {0,1,2}`, and the timestamp is itself a float), so the stored score is
the exact rational sum rounded ONCE to 53 significant bits, nearest, ties
to even.  At NORMAL priority and current epochs the score sits in
`[2³⁹, 2⁴⁰)`, where the grid spacing (ULP) is `2⁻¹³ s ≈ 122 µs`: enqueues
closer than that can round to the same stored score, which Redis then
orders lexicographically by member id. -/

/-- Round to the nearest integer, ties to the even integer. -/
def roundEven (m : ℚ) : ℤ :=
  if Int.fract m < 1 / 2 then ⌊m⌋
  else if 1 / 2 < Int.fract m then ⌊m⌋ + 1
  else if 2 ∣ ⌊m⌋ then ⌊m⌋ else ⌊m⌋ + 1

/-- Binary64 rounding of an exact nonnegative sum: round to the grid of
spacing `2 ^ (⌊log₂ x⌋ - 52)`, nearest, ties to even.  Sums below 1 (only
a HIGH=0 priority with a sub-second timestamp) are exact float sums and
are returned unrounded. -/
def fl (x : ℚ) : ℚ :=
  if x < 1 then x
  else (roundEven (x / 2 ^ (Int.log 2 x - 52)) : ℚ) * 2 ^ (Int.log 2 x - 52)

/-- The double that `ZADD signals:queue` stores for priority `p` and
enqueue timestamp `t`: the float value of `p * 1e12 + t`. -/
def storedScore (p : ℕ) (t : ℚ) : ℚ := fl ((p : ℚ) * 10 ^ 12 + t)

/-- `QueuedSignal` dataclass. -/
structure QueuedSignal where
  signal_id : String
  user_id : String
  strategy_id : String
  symbol : String
  action : String
  price : Option String := none
  stop_loss : Option String := none
  take_profit : Option String := none
  leverage : ℕ := 1
  priority : ℕ := QueuePriorityNORMAL
  retry_count : ℕ := 0
  max_retries : ℕ := 3
  created_at : Option String := none
  scheduled_at : Option String := none
  deriving Repr, DecidableEq

/-- One entry of the `signals:dead_letter` list. -/
structure DeadLetterEntry where
  signal : QueuedSignal
  error : String
  failed_at : String
  deriving Repr, DecidableEq

/-- Lookup in an association list (a Redis keyspace slice). -/
def getKey {α : Type} : List (String × α) → String → Option α
  | [], _ => none
  | (k, v) :: rest, key => if k = key then some v else getKey rest key

/-- `SET key value`: overwrite any existing binding for the key. -/
def setKey {α : Type} (m : List (String × α)) (key : String) (v : α) :
    List (String × α) :=
  (key, v) :: m.filter (fun e => e.1 ≠ key)

/-- `ZADD`: add the member with the given score, replacing its old score. -/
def zadd (q : List (String × ℚ)) (member : String) (score : ℚ) :
    List (String × ℚ) :=
  (member, score) :: q.filter (fun e => e.1 ≠ member)

/-- The entry a `ZPOPMIN` would pop: minimal score, ties broken by the
lexicographically smaller member (Redis orders equal-score members
lexicographically). -/
def zminEntry : List (String × ℚ) → Option (String × ℚ)
  | [] => none
  | e :: rest =>
    match zminEntry rest with
    | none => some e
    | some m =>
      if e.2 < m.2 ∨ (e.2 = m.2 ∧ e.1 < m.1) then some e else some m

/-- `SADD`: add to a set. -/
def saddL (s : List String) (x : String) : List String :=
  if x ∈ s then s else x :: s

/-- The modelled Redis keyspace used by `SignalQueue`. -/
structure RedisState where
  queue : List (String × ℚ)
  processing : List String
  bodies : List (String × QueuedSignal)
  dead_letter : List DeadLetterEntry
  dedup : List (String × String)
  deriving Repr, DecidableEq

/-- An empty Redis keyspace. -/
def emptyRedis : RedisState :=
  { queue := [], processing := [], bodies := [], dead_letter := [], dedup := [] }

/-- `SignalQueue.enqueue`.  `now` is `datetime.utcnow().timestamp()` (epoch
seconds) and `nowIso` its ISO rendering; the dedup TTL is abstracted (see
module comment).  Returns the method's boolean result and the state after
the call. -/
def enqueue (st : RedisState) (signal : QueuedSignal)
    (dedup_key : Option String) (now : ℚ) (nowIso : String) :
    Bool × RedisState :=
  -- Check deduplication
  let afterDedup : Option RedisState :=
    match dedup_key with
    | some k =>
      if (getKey st.dedup k).isSome then none
      else some { st with dedup := setKey st.dedup k signal.signal_id }
    | none => some st
  match afterDedup with
  | none => (false, st)
  | some st1 =>
    -- Set creation timestamp (assigned only when the field is unset)
    let signal1 := { signal with
      created_at :=
        if signal.created_at = none then some nowIso else signal.created_at }
    -- Store signal data
    let st2 := { st1 with
      bodies := setKey st1.bodies signal1.signal_id signal1 }
    -- Add to priority queue: score = priority * 1e12 + timestamp,
    -- a float sum rounded to binary64
    let score : ℚ := storedScore signal1.priority now
    (true, { st2 with queue := zadd st2.queue signal1.signal_id score })

/-- `SignalQueue.dequeue` (non-blocking variant): pop the lowest-score id,
read its body, add the id to the processing set. -/
def dequeue (st : RedisState) : Option QueuedSignal × RedisState :=
  match zminEntry st.queue with
  | none => (none, st)
  | some e =>
    let st1 := { st with queue := st.queue.filter (fun x => x.1 ≠ e.1) }
    match getKey st1.bodies e.1 with
    | none => (none, st1)
    | some signal =>
      (some signal, { st1 with processing := saddL st1.processing e.1 })

/-- `SignalQueue.complete`. -/
def complete (st : RedisState) (signal_id : String) : RedisState :=
  { st with
    processing := st.processing.filter (fun x => x ≠ signal_id)
    bodies := st.bodies.filter (fun e => e.1 ≠ signal_id) }

/-- `SignalQueue.fail`.  Returns `true` when the signal will be retried and
`false` when it is dead-lettered (or its body is missing). -/
def fail (st : RedisState) (signal_id error : String) (retry : Bool)
    (now : ℚ) (nowIso : String) : Bool × RedisState :=
  let st1 := { st with
    processing := st.processing.filter (fun x => x ≠ signal_id) }
  match getKey st1.bodies signal_id with
  | none => (false, st1)
  | some signal =>
    if retry ∧ signal.retry_count < signal.max_retries then
      -- Increment retry count and re-queue with delay
      let signal1 := { signal with retry_count := signal.retry_count + 1 }
      let delay : ℕ := min (2 ^ signal1.retry_count) 60
      let st2 := { st1 with
        bodies := setKey st1.bodies signal_id signal1 }
      -- Re-queue with lower priority and delay
      let score : ℚ := (QueuePriorityLOW : ℚ) * 10 ^ 12 + (now + (delay : ℚ))
      (true, { st2 with queue := zadd st2.queue signal_id score })
    else
      -- Move to dead letter queue
      let entry : DeadLetterEntry :=
        { signal := signal, error := error, failed_at := nowIso }
      (false, { st1 with
        dead_letter := entry :: st1.dead_letter
        bodies := st1.bodies.filter (fun e => e.1 ≠ signal_id) })

/-! ## Embedding of `app/exchanges/base.py` and `app/core/trade_executor.py` -/

/-- `OrderStatus` enum of the exchange layer. -/
inductive OrderStatus where
  | PENDING
  | OPEN
  | FILLED
  | PARTIALLY_FILLED
  | CANCELED
  | FAILED
  deriving Repr, DecidableEq

/-- `PositionSide` enum. -/
inductive PositionSide where
  | long
  | short
  deriving Repr, DecidableEq

/-- `.value` of a `PositionSide` member. -/
def PositionSide.value : PositionSide → String
  | .long => "long"
  | .short => "short"

/-- `Position` dataclass (the fields the exit path reads). -/
structure Position where
  symbol : String
  side : PositionSide
  quantity : ℚ
  entry_price : ℚ
  leverage : ℕ := 1
  deriving Repr, DecidableEq

/-- `ExecutionStatus` enum of the trade executor. -/
inductive ExecutionStatus where
  | PENDING
  | RISK_CHECK_FAILED
  | EXECUTING
  | FILLED
  | PARTIALLY_FILLED
  | FAILED
  | CANCELED
  deriving Repr, DecidableEq

/-- `TradeExecutor._map_order_status`: the dictionary lists all six venue
statuses, with `ExecutionStatus.FAILED` as the `.get` default for any key
outside the dictionary (unreachable, since every member is listed). -/
def map_order_status : OrderStatus → ExecutionStatus
  | .PENDING => .PENDING
  | .OPEN => .EXECUTING
  | .FILLED => .FILLED
  | .PARTIALLY_FILLED => .PARTIALLY_FILLED
  | .CANCELED => .CANCELED
  | .FAILED => .FAILED

/-- The position-lookup prelude of `TradeExecutor._execute_exit`: given the
adapter's `get_positions(symbol)` result, either the failure
`(ExecutionStatus, error string)` it returns, or `none` when a matching
position is found and execution proceeds to the close order. -/
def execute_exit_check (positions : List Position) (is_long : Bool)
    (symbol : String) : Option (ExecutionStatus × String) :=
  if positions = [] then
    some (.FAILED, "No open position for " ++ symbol)
  else
    let target_side := if is_long then "long" else "short"
    match positions.find? (fun pos => pos.side.value = target_side) with
    | some _ => none
    | none => some (.FAILED, "No " ++ target_side ++ " position for " ++ symbol)

/-- The quantity `_execute_entry` submits after the risk check:
`if risk_result.adjusted_quantity: quantity = risk_result.adjusted_quantity`
(a `Decimal("0")` adjusted quantity is falsy and leaves the original). -/
def entry_quantity_after_risk (risk_result : RiskCheckResult) (quantity : ℚ) :
    ℚ :=
  match risk_result.adjusted_quantity with
  | some a => if a = 0 then quantity else a
  | none => quantity

/-! ## Embedding of `app/workers/signal_processor.py` result handling -/

/-- What `_process_signal` does with the queue after `execute_signal`
returns: `complete`, `fail(retry=false)` or `fail(retry=true)`. -/
inductive WorkerAction where
  | complete
  | failNoRetry
  | failRetry
  deriving Repr, DecidableEq

/-- The result-handling branch of `SignalProcessor._process_signal`. -/
def handle_result (status : ExecutionStatus) : WorkerAction :=
  if status = .FILLED ∨ status = .PARTIALLY_FILLED then .complete
  else if status = .RISK_CHECK_FAILED then .failNoRetry
  else .failRetry

/-! ## Embedding of `app/api/webhooks.py` authentication prelude -/

/-- The strategy row consumed by the webhook handler. -/
structure Strategy where
  id : String
  webhook_token : String
  exchange : String
  is_active : Bool
  deriving Repr, DecidableEq

/-- The authentication prelude of `receive_tradingview_signal`, up to and
including the secret checks: the strategy lookup result, the payload
secret, and the outcome of `verify_webhook_secret` are inputs; the output
is either the HTTP error status raised or `ok`.  The handler looks the
strategy up first (404 absent, 400 inactive) and only then validates the
secret format (401) and its value (401). -/
def receive_signal_auth (strategy : Option Strategy) (secret : String)
    (secret_valid : Bool) : Except ℕ Unit :=
  match strategy with
  | none => .error 404
  | some s =>
    if ¬ s.is_active then .error 400
    else if secret = "" ∨ secret.length < 16 then .error 401
    else if ¬ secret_valid then .error 401
    else .ok ()

/-! ## Helper lemmas -/

/-- Looking up the key just written by `setKey` yields the written value. -/
theorem getKey_setKey {α : Type} (m : List (String × α)) (k : String) (v : α) :
    getKey (setKey m k v) k = some v := by
  simp [getKey, setKey]

/-- Looking up the member just written by `zadd` yields the written score. -/
theorem getKey_zadd (q : List (String × ℚ)) (member : String) (score : ℚ) :
    getKey (zadd q member score) member = some score := by
  simp [getKey, zadd]

/-- Round-to-nearest is off by at most half a grid step. -/
theorem abs_roundEven_sub_le (m : ℚ) : |(roundEven m : ℚ) - m| ≤ 1 / 2 := by
  have h0 : (0:ℚ) ≤ Int.fract m := Int.fract_nonneg m
  have h1 : Int.fract m < 1 := Int.fract_lt_one m
  have hf : ((⌊m⌋ : ℤ) : ℚ) = m - Int.fract m := by
    rw [← Int.self_sub_fract]
  by_cases ha : Int.fract m < 1 / 2
  · rw [roundEven, if_pos ha, abs_le]
    constructor <;> linarith
  · by_cases hb : 1 / 2 < Int.fract m
    · rw [roundEven, if_neg ha, if_pos hb, abs_le]
      push_cast
      constructor <;> linarith
    · have hf2 : Int.fract m = 1 / 2 := le_antisymm (not_lt.mp hb) (not_lt.mp ha)
      rw [roundEven, if_neg ha, if_neg hb]
      split_ifs <;> (rw [abs_le]; push_cast; constructor <;> linarith)

/-- Below `2⁴¹` (every queue score for priorities 0–2 and realistic
timestamps) the binary64 rounding error is at most `2⁻¹³` (half the
largest ULP in range). -/
theorem abs_fl_sub_le (x : ℚ) (h41 : x < 2 ^ 41) : |fl x - x| ≤ 1 / 2 ^ 13 := by
  rw [fl]
  split_ifs with h1
  · simp
  · push_neg at h1
    have hx0 : (0:ℚ) < x := lt_of_lt_of_le one_pos h1
    have h41z : x < (2:ℚ) ^ (41:ℤ) := by
      rw [show ((41:ℤ)) = ((41:ℕ):ℤ) from rfl, zpow_natCast]
      exact h41
    have hlog : Int.log 2 x < 41 := by
      rw [← Int.lt_zpow_iff_log_lt (by norm_num : (1:ℕ) < 2) hx0]
      exact h41z
    have he : Int.log 2 x - 52 ≤ -12 := by omega
    have hu0 : (0:ℚ) < 2 ^ (Int.log 2 x - 52) := by positivity
    have hub : (2:ℚ) ^ (Int.log 2 x - 52) ≤ 2 ^ (-12 : ℤ) :=
      zpow_le_zpow_right₀ one_le_two he
    have hr := abs_roundEven_sub_le (x / 2 ^ (Int.log 2 x - 52))
    have key : |(roundEven (x / 2 ^ (Int.log 2 x - 52)) : ℚ) *
        2 ^ (Int.log 2 x - 52) - x| =
        |(roundEven (x / 2 ^ (Int.log 2 x - 52)) : ℚ) -
          x / 2 ^ (Int.log 2 x - 52)| * 2 ^ (Int.log 2 x - 52) := by
      have harith : (roundEven (x / 2 ^ (Int.log 2 x - 52)) : ℚ) *
          2 ^ (Int.log 2 x - 52) - x =
          ((roundEven (x / 2 ^ (Int.log 2 x - 52)) : ℚ) -
            x / 2 ^ (Int.log 2 x - 52)) * 2 ^ (Int.log 2 x - 52) := by
        rw [sub_mul, div_mul_cancel₀ _ (ne_of_gt hu0)]
      rw [harith, abs_mul, abs_of_pos hu0]
    rw [key]
    have step1 : |(roundEven (x / 2 ^ (Int.log 2 x - 52)) : ℚ) -
        x / 2 ^ (Int.log 2 x - 52)| * 2 ^ (Int.log 2 x - 52) ≤
        (1 / 2) * 2 ^ (Int.log 2 x - 52) :=
      mul_le_mul_of_nonneg_right hr (le_of_lt hu0)
    have step2 : (1 / 2 : ℚ) * 2 ^ (Int.log 2 x - 52) ≤ (1 / 2) * 2 ^ (-12 : ℤ) :=
      mul_le_mul_of_nonneg_left hub (by norm_num)
    have step3 : (1 / 2 : ℚ) * 2 ^ (-12 : ℤ) = 1 / 2 ^ 13 := by
      rw [zpow_neg]
      norm_num
    linarith

/-- Characterisation of the binade: `⌊log₂ x⌋ = n` for `2ⁿ ≤ x < 2ⁿ⁺¹`. -/
theorem Int_log_two_eq (x : ℚ) (n : ℕ) (hx1 : (2:ℚ) ^ n ≤ x)
    (hx2 : x < 2 ^ (n + 1)) : Int.log 2 x = n := by
  have hx : (0:ℚ) < x := lt_of_lt_of_le (by positivity) hx1
  have hlo : (n : ℤ) ≤ Int.log 2 x := by
    rw [← Int.zpow_le_iff_le_log (by norm_num) hx, zpow_natCast]
    exact_mod_cast hx1
  have hhi : Int.log 2 x < (n : ℤ) + 1 := by
    rw [← Int.lt_zpow_iff_log_lt (by norm_num) hx,
      show ((n:ℤ) + 1) = ((n + 1 : ℕ) : ℤ) by push_cast; ring, zpow_natCast]
    exact_mod_cast hx2
  omega

/-- Integers in range round to themselves. -/
theorem roundEven_intCast (n : ℤ) : roundEven (n : ℚ) = n := by
  rw [roundEven, if_pos (by rw [Int.fract_intCast]; norm_num), Int.floor_intCast]

/-- An integer plus less than half a unit rounds down to the integer. -/
theorem roundEven_int_add_small (n : ℤ) (f : ℚ) (h0 : 0 ≤ f) (hf : f < 1 / 2) :
    roundEven ((n : ℚ) + f) = n := by
  have hfr : Int.fract ((n:ℚ) + f) = f := by
    rw [Int.fract_int_add, Int.fract_eq_self.mpr ⟨h0, by linarith⟩]
  have hfl : ⌊(n:ℚ) + f⌋ = n := by
    rw [Int.floor_int_add,
      Int.floor_eq_zero_iff.mpr (Set.mem_Ico.mpr ⟨h0, by linarith⟩), add_zero]
  rw [roundEven, if_pos (by rw [hfr]; exact hf), hfl]

/-! ## Theorems for the claims -/

set_option maxHeartbeats 1000000 in
/-- C1: `check_trade` evaluates its rules in the fixed order daily-loss,
daily-trade-count, open-positions-count, leverage, position-size,
portfolio-exposure, stop-loss-required and returns the first failing check,
except that an oversized position is accepted immediately with an adjusted
quantity and a warning, skipping the exposure and stop-loss checks: the
source translation coincides with the specification's first-failing-rule
model on every input. -/
theorem check_trade_matches_spec_order (S : RiskSettings) (trade : TradeRequest)
    (portfolio : PortfolioState) :
    check_trade S trade portfolio = check_trade_spec S trade portfolio := by
  simp only [check_trade, check_trade_full, check_trade_spec, firstFailing,
    ruleAt]
  split_ifs <;> rfl

/-- C7 counterexample: with `max_portfolio_exposure_percent = 150` (no code
validates the setting against 100) a trade on a zero-balance portfolio that
passes the first five checks is ACCEPTED, because the exposure treated as
100% does not exceed the configured maximum — the claim says it is
rejected. -/
def c7Settings : RiskSettings :=
  { defaultRiskSettings with
    max_portfolio_exposure_percent := 150, require_stop_loss := false }

/-- Trade for the C7 counterexample. -/
def c7Trade : TradeRequest :=
  { user_id := "u1", symbol := "BTCUSDT", side := "long",
    quantity := 1, entry_price := 100 }

/-- Zero-balance portfolio for the C7 counterexample. -/
def c7Portfolio : PortfolioState :=
  { total_balance_usd := 0, open_positions_count := 0,
    open_positions_value_usd := 0, daily_trades_count := 0,
    daily_pnl_percent := 0, daily_loss_percent := 0 }

/-- C7 counterexample: a zero-balance portfolio and a trade passing checks
1–5, yet `check_trade` accepts (the claim predicts rejection), because the
configured exposure maximum is 150 ≥ 100. -/
theorem check_trade_zero_balance_not_always_rejected :
    c7Portfolio.total_balance_usd = 0 ∧
    c7Portfolio.daily_loss_percent < c7Settings.max_daily_loss_percent ∧
    c7Portfolio.daily_trades_count < c7Settings.max_daily_trades ∧
    c7Portfolio.open_positions_count < c7Settings.max_open_positions ∧
    c7Trade.leverage ≤ c7Settings.max_leverage ∧
    c7Trade.quantity * c7Trade.entry_price ≤ c7Settings.max_position_size_usd ∧
    (check_trade c7Settings c7Trade c7Portfolio).passed = true := by
  refine ⟨rfl, ?_, ?_, ?_, ?_, ?_, ?_⟩ <;>
    norm_num [check_trade, check_trade_full, c7Settings, c7Trade, c7Portfolio,
      defaultRiskSettings]

/-- C7 (amended): when additionally the configured
`max_portfolio_exposure_percent` is below 100, every trade on a
zero-balance portfolio that passes checks 1–5 is rejected with the exposure
treated as exactly 100% — in particular the division by
`total_balance_usd` is never performed. -/
theorem check_trade_zero_balance_rejects (S : RiskSettings)
    (t : TradeRequest) (p : PortfolioState)
    (hzero : p.total_balance_usd = 0)
    (hmax : S.max_portfolio_exposure_percent < 100)
    (h1 : p.daily_loss_percent < S.max_daily_loss_percent)
    (h2 : p.daily_trades_count < S.max_daily_trades)
    (h3 : p.open_positions_count < S.max_open_positions)
    (h4 : t.leverage ≤ S.max_leverage)
    (h5 : t.quantity * t.entry_price ≤ S.max_position_size_usd) :
    check_trade S t p =
      { passed := false, reason := some (.portfolioExposure 100) } := by
  unfold check_trade check_trade_full
  rw [hzero]
  rw [if_neg (not_le.mpr h1), if_neg (not_le.mpr h2), if_neg (not_le.mpr h3),
    if_neg (not_lt.mpr h4)]
  simp only [gt_iff_lt, lt_self_iff_false, if_false, if_neg (not_lt.mpr h5),
    if_pos hmax]

/-- Closed witness for the C7 amended theorem at the default settings. -/
theorem check_trade_zero_balance_rejects_witness :
    c7Portfolio.total_balance_usd = 0 ∧
    defaultRiskSettings.max_portfolio_exposure_percent < 100 ∧
    check_trade defaultRiskSettings c7Trade c7Portfolio =
      { passed := false, reason := some (.portfolioExposure 100) } :=
  ⟨rfl, by norm_num [defaultRiskSettings],
    check_trade_zero_balance_rejects defaultRiskSettings c7Trade c7Portfolio
      rfl (by norm_num [defaultRiskSettings])
      (by norm_num [c7Portfolio, defaultRiskSettings])
      (by norm_num [c7Portfolio, defaultRiskSettings])
      (by norm_num [c7Portfolio, defaultRiskSettings])
      (by norm_num [c7Trade, defaultRiskSettings])
      (by norm_num [c7Trade, defaultRiskSettings])⟩

/-- C8: `calculate_position_size` returns
`min((balance · risk% / 100) / |entry − stop|, max_position_size_usd / entry)`,
returns 0 when entry = stop, and on balance 10000, entry 2000, stop 1960,
risk 2%, max 1000 returns 0.5.  The hypotheses `0 < e` and `r ≠ 0` confine
the statement to the domain where Python's `Decimal` division is defined
and the `risk_percent or default` fallback keeps the supplied percentage. -/
theorem calculate_position_size_formula (S : RiskSettings) (b e s r : ℚ)
    (he : 0 < e) (hr : r ≠ 0) :
    (e ≠ s → calculate_position_size S b e s (some r) =
      min (b * (r / 100) / |e - s|) (S.max_position_size_usd / e)) ∧
    calculate_position_size S b e e (some r) = 0 ∧
    calculate_position_size defaultRiskSettings 10000 2000 1960 (some 2)
      = 1 / 2 := by
  refine ⟨fun hes => ?_, ?_,
    by norm_num [calculate_position_size, defaultRiskSettings]⟩
  · simp only [calculate_position_size]
    rw [if_neg hr, if_neg (by simpa [abs_eq_zero, sub_eq_zero] using hes)]
  · simp only [calculate_position_size]
    simp

/-- Closed witness for C8 on the concrete example of the claim. -/
theorem calculate_position_size_formula_witness :
    (0 : ℚ) < 2000 ∧ (2 : ℚ) ≠ 0 ∧
    calculate_position_size defaultRiskSettings 10000 2000 1960 (some 2)
      = 1 / 2 :=
  ⟨by norm_num, by norm_num,
    (calculate_position_size_formula defaultRiskSettings 10000 2000 1960 2
      (by norm_num) (by norm_num)).2.2⟩

/-- C10: `check_trade` never mutates its arguments — the state-passing
embedding returns the `TradeRequest` and `PortfolioState` unchanged on
every path — and a nonzero adjusted quantity is applied to the order by
the executor in place of the original quantity. -/
theorem check_trade_no_mutation (S : RiskSettings) (t : TradeRequest)
    (p : PortfolioState) :
    (check_trade_full S t p).2.1 = t ∧ (check_trade_full S t p).2.2 = p ∧
    (∀ q a, (check_trade S t p).adjusted_quantity = some a → a ≠ 0 →
      entry_quantity_after_risk (check_trade S t p) q = a) := by
  refine ⟨?_, ?_, fun q a ha hne => ?_⟩
  · simp only [check_trade_full]; split_ifs <;> rfl
  · simp only [check_trade_full]; split_ifs <;> rfl
  · simp only [entry_quantity_after_risk]
    rw [ha]
    simp [hne]

/-- Closed witness for C10: an oversized trade is adjusted to quantity 1,
the arguments are returned unchanged, and the executor uses quantity 1. -/
theorem check_trade_no_mutation_witness :
    (check_trade defaultRiskSettings
        { c7Trade with quantity := 2, entry_price := 1000 }
        c7Portfolio).adjusted_quantity = some 1 ∧
    (1 : ℚ) ≠ 0 ∧
    entry_quantity_after_risk
      (check_trade defaultRiskSettings
        { c7Trade with quantity := 2, entry_price := 1000 } c7Portfolio) 7
      = 1 :=
  ⟨by norm_num [check_trade, check_trade_full, defaultRiskSettings, c7Trade,
      c7Portfolio],
   by norm_num,
    (check_trade_no_mutation defaultRiskSettings
        { c7Trade with quantity := 2, entry_price := 1000 }
        c7Portfolio).2.2 7 1
      (by norm_num [check_trade, check_trade_full, defaultRiskSettings,
        c7Trade, c7Portfolio])
      (by norm_num)⟩

/-- The keyspace after enqueuing `sigA` (timestamp `tA`) and `sigB`
(timestamp `tB`), in either order, into an empty keyspace. -/
def twoEnqueueState (sigA sigB : QueuedSignal) (tA tB : ℚ)
    (isoA isoB : String) (aFirst : Bool) : RedisState :=
  if aFirst then
    (enqueue (enqueue emptyRedis sigA none tA isoA).2 sigB none tB isoB).2
  else
    (enqueue (enqueue emptyRedis sigB none tB isoB).2 sigA none tA isoA).2

/-- The ids popped by the first and the second dequeue from a keyspace. -/
def dequeuedPair (st : RedisState) : Option String × Option String :=
  ((dequeue st).1.map QueuedSignal.signal_id,
   (dequeue (dequeue st).2).1.map QueuedSignal.signal_id)

/-- Dequeue order from `twoEnqueueState`: the signal whose stored (float)
score is smaller is popped first; on equal stored scores Redis pops the
lexicographically smaller member id first.  Holds for either enqueue
order. -/
theorem twoEnqueueState_dequeue_order (sigA sigB : QueuedSignal) (tA tB : ℚ)
    (isoA isoB : String) (aFirst : Bool)
    (hid : sigA.signal_id ≠ sigB.signal_id)
    (hcond : storedScore sigA.priority tA < storedScore sigB.priority tB ∨
      (storedScore sigA.priority tA = storedScore sigB.priority tB ∧
        sigA.signal_id < sigB.signal_id)) :
    dequeuedPair (twoEnqueueState sigA sigB tA tB isoA isoB aFirst) =
      (some sigA.signal_id, some sigB.signal_id) := by
  have hid2 : sigB.signal_id ≠ sigA.signal_id := Ne.symm hid
  rcases hcond with hlt | ⟨heq, hlex⟩
  · have hnlt : ¬ (storedScore sigB.priority tB < storedScore sigA.priority tA) :=
      lt_asymm hlt
    have hne : storedScore sigB.priority tB ≠ storedScore sigA.priority tA :=
      ne_of_gt hlt
    cases aFirst <;>
      simp [dequeuedPair, twoEnqueueState, enqueue, dequeue, zadd, zminEntry,
        getKey, setKey, saddL, emptyRedis, hid, hid2, hlt, hnlt, hne]
  · have hnlex : ¬ (sigB.signal_id < sigA.signal_id) := lt_asymm hlex
    cases aFirst <;>
      simp [dequeuedPair, twoEnqueueState, enqueue, dequeue, zadd, zminEntry,
        getKey, setKey, saddL, emptyRedis, hid, hid2, heq, hlex, hnlex]

/-- C2 (amended): with stored scores `fl(priority · 10¹² + t)` (the float
sum the source computes) and a lowest-score pop: (a) a smaller priority
number is dequeued first for any epoch-second timestamps below 10¹⁰,
because the 10¹² priority stride dwarfs the ≤ 2⁻¹³ rounding error;
(b) within a priority class the earlier enqueue is dequeued first whenever
the two stored scores differ; (c) when rounding collapses both enqueues to
the same stored score, the lexicographically smaller signal id is dequeued
first regardless of the enqueue times. -/
theorem queue_priority_dominance_and_fifo_float (sigA sigB : QueuedSignal)
    (tA tB : ℚ) (isoA isoB : String) (aFirst : Bool)
    (hid : sigA.signal_id ≠ sigB.signal_id) :
    (sigA.priority < sigB.priority → sigB.priority ≤ 2 →
      0 ≤ tA → tA < 10 ^ 10 → 0 ≤ tB → tB < 10 ^ 10 →
      dequeuedPair (twoEnqueueState sigA sigB tA tB isoA isoB aFirst) =
        (some sigA.signal_id, some sigB.signal_id)) ∧
    (sigA.priority = sigB.priority →
      storedScore sigA.priority tA < storedScore sigB.priority tB →
      dequeuedPair (twoEnqueueState sigA sigB tA tB isoA isoB aFirst) =
        (some sigA.signal_id, some sigB.signal_id)) ∧
    (sigA.priority = sigB.priority →
      storedScore sigA.priority tA = storedScore sigB.priority tB →
      sigA.signal_id < sigB.signal_id →
      dequeuedPair (twoEnqueueState sigA sigB tA tB isoA isoB aFirst) =
        (some sigA.signal_id, some sigB.signal_id)) := by
  refine ⟨fun hp hp2 h0A h1A h0B h1B => ?_, fun hp hlt => ?_,
    fun hp heq hlex => ?_⟩
  · apply twoEnqueueState_dequeue_order _ _ _ _ _ _ _ hid
    left
    have hp1 : (sigA.priority : ℚ) + 1 ≤ (sigB.priority : ℚ) := by
      exact_mod_cast hp
    have hpB : (sigB.priority : ℚ) ≤ 2 := by exact_mod_cast hp2
    have hpA0 : (0:ℚ) ≤ (sigA.priority : ℚ) := by positivity
    have hpA1 : (sigA.priority : ℚ) ≤ 1 := by linarith
    have hmulA : (sigA.priority : ℚ) * 10 ^ 12 ≤ 1 * 10 ^ 12 :=
      mul_le_mul_of_nonneg_right hpA1 (by norm_num)
    have hmulB : (sigB.priority : ℚ) * 10 ^ 12 ≤ 2 * 10 ^ 12 :=
      mul_le_mul_of_nonneg_right hpB (by norm_num)
    have hstride : ((sigA.priority : ℚ) + 1) * 10 ^ 12 ≤
        (sigB.priority : ℚ) * 10 ^ 12 :=
      mul_le_mul_of_nonneg_right hp1 (by norm_num)
    have hsA41 : (sigA.priority : ℚ) * 10 ^ 12 + tA < 2 ^ 41 := by
      norm_num at hmulA ⊢
      linarith
    have hsB41 : (sigB.priority : ℚ) * 10 ^ 12 + tB < 2 ^ 41 := by
      norm_num at hmulB ⊢
      linarith
    have eA := abs_le.mp (abs_fl_sub_le ((sigA.priority : ℚ) * 10 ^ 12 + tA) hsA41)
    have eB := abs_le.mp (abs_fl_sub_le ((sigB.priority : ℚ) * 10 ^ 12 + tB) hsB41)
    rw [storedScore, storedScore]
    have hstride2 : (sigA.priority : ℚ) * 10 ^ 12 + 10 ^ 12 ≤
        (sigB.priority : ℚ) * 10 ^ 12 := by linarith [hstride]
    obtain ⟨eA1, eA2⟩ := eA
    obtain ⟨eB1, eB2⟩ := eB
    set a := fl ((sigA.priority : ℚ) * 10 ^ 12 + tA) with hadef
    set b := fl ((sigB.priority : ℚ) * 10 ^ 12 + tB) with hbdef
    linarith
  · exact twoEnqueueState_dequeue_order _ _ _ _ _ _ _ hid (Or.inl hlt)
  · exact twoEnqueueState_dequeue_order _ _ _ _ _ _ _ hid (Or.inr ⟨heq, hlex⟩)

/-- Signal used by the closed queue witnesses. -/
def wSigA : QueuedSignal :=
  { signal_id := "sig-a", user_id := "u1", strategy_id := "s1",
    symbol := "BTCUSDT", action := "long_exit",
    priority := QueuePriorityHIGH }

/-- Second signal used by the closed queue witnesses. -/
def wSigB : QueuedSignal :=
  { signal_id := "sig-b", user_id := "u1", strategy_id := "s1",
    symbol := "BTCUSDT", action := "long_entry",
    priority := QueuePriorityNORMAL }

/-- Closed witness for the C2 amended theorem: a HIGH-priority signal
enqueued later (epoch second 100) is dequeued before a NORMAL one enqueued
earlier (epoch second 50). -/
theorem queue_priority_dominance_and_fifo_float_witness :
    wSigA.signal_id ≠ wSigB.signal_id ∧
    wSigA.priority < wSigB.priority ∧ wSigB.priority ≤ 2 ∧
    ((0 : ℚ) ≤ 100 ∧ (100 : ℚ) < 10 ^ 10 ∧
      (0 : ℚ) ≤ 50 ∧ (50 : ℚ) < 10 ^ 10) ∧
    dequeuedPair (twoEnqueueState wSigA wSigB 100 50 "t1" "t2" false) =
      (some wSigA.signal_id, some wSigB.signal_id) :=
  ⟨by decide, by decide, by decide,
    ⟨by norm_num, by norm_num, by norm_num, by norm_num⟩,
    (queue_priority_dominance_and_fifo_float wSigA wSigB 100 50 "t1" "t2"
        false (by decide)).1 (by decide) (by decide) (by norm_num)
      (by norm_num) (by norm_num) (by norm_num)⟩

/-- The earlier-enqueued signal of the C2 counterexample (lexicographically
LARGER id). -/
def cxSigT1 : QueuedSignal :=
  { signal_id := "b-sig", user_id := "u1", strategy_id := "s1",
    symbol := "BTCUSDT", action := "long_entry",
    priority := QueuePriorityNORMAL }

/-- The later-enqueued signal of the C2 counterexample (lexicographically
SMALLER id). -/
def cxSigT2 : QueuedSignal :=
  { signal_id := "a-sig", user_id := "u2", strategy_id := "s1",
    symbol := "BTCUSDT", action := "long_entry",
    priority := QueuePriorityNORMAL }

/-- The grid point `10¹² + 1.7·10⁹` is exactly representable, so it is
its own float value. -/
theorem fl_collision_lo : fl (1001700000000 : ℚ) = 1001700000000 := by
  have e1 : Int.log 2 (1001700000000 : ℚ) = 39 :=
    Int_log_two_eq _ 39 (by norm_num) (by norm_num)
  rw [fl, if_neg (by norm_num), e1,
    show ((39:ℤ) - 52) = -13 from by norm_num,
    show ((2:ℚ) ^ (-13:ℤ)) = 1 / 8192 from by rw [zpow_neg]; norm_num,
    show ((1001700000000 : ℚ) / (1 / 8192)) = ((8205926400000000 : ℤ) : ℚ)
      from by norm_num,
    roundEven_intCast]
  norm_num

/-- A timestamp one double-ULP (`2⁻²² s`) later lands `1/512` of a score
ULP above the same grid point and rounds down to it. -/
theorem fl_collision_hi :
    fl (1001700000000 + 1 / 4194304 : ℚ) = 1001700000000 := by
  have e2 : Int.log 2 (1001700000000 + 1 / 4194304 : ℚ) = 39 :=
    Int_log_two_eq _ 39 (by norm_num) (by norm_num)
  rw [fl, if_neg (by norm_num), e2,
    show ((39:ℤ) - 52) = -13 from by norm_num,
    show ((2:ℚ) ^ (-13:ℤ)) = 1 / 8192 from by rw [zpow_neg]; norm_num,
    show ((1001700000000 + 1 / 4194304 : ℚ) / (1 / 8192)) =
      ((8205926400000000 : ℤ) : ℚ) + 1 / 512 from by norm_num,
    roundEven_int_add_small _ _ (by norm_num) (by norm_num)]
  norm_num

/-- Two NORMAL-priority enqueue timestamps `2⁻²² s` apart (adjacent
doubles near epoch `1.7·10⁹`) store the SAME score. -/
theorem cx_score_collision :
    storedScore QueuePriorityNORMAL 1700000000 =
      storedScore QueuePriorityNORMAL (1700000000 + 1 / 4194304) := by
  rw [storedScore, storedScore, QueuePriorityNORMAL,
    show ((1:ℕ):ℚ) * 10 ^ 12 + 1700000000 = (1001700000000 : ℚ)
      from by norm_num,
    show ((1:ℕ):ℚ) * 10 ^ 12 + (1700000000 + 1 / 4194304) =
      (1001700000000 + 1 / 4194304 : ℚ) from by norm_num,
    fl_collision_lo, fl_collision_hi]

/-- C2 counterexample: two equal-priority signals enqueued at times
`t1 < t2` (a quarter-microsecond apart, both exact doubles) round to the
same stored score, and the tie is popped in lexicographic id order: the
LATER-enqueued "a-sig" is dequeued before the earlier "b-sig" — FIFO
within a priority class fails at reachable inputs. -/
theorem queue_fifo_float_counterexample :
    cxSigT1.priority = cxSigT2.priority ∧
    (1700000000 : ℚ) < 1700000000 + 1 / 4194304 ∧
    cxSigT1.signal_id ≠ cxSigT2.signal_id ∧
    dequeuedPair (twoEnqueueState cxSigT2 cxSigT1
        (1700000000 + 1 / 4194304) 1700000000 "i2" "i1" false) =
      (some cxSigT2.signal_id, some cxSigT1.signal_id) := by
  refine ⟨rfl, by norm_num, by decide, ?_⟩
  apply twoEnqueueState_dequeue_order _ _ _ _ _ _ _ (by decide)
  right
  refine ⟨?_, ?_⟩
  · show storedScore QueuePriorityNORMAL (1700000000 + 1 / 4194304) =
      storedScore QueuePriorityNORMAL 1700000000
    exact cx_score_collision.symm
  · show ("a-sig" : String) < "b-sig"
    rw [String.lt_iff_toList_lt]
    decide

/-- C3: failing an in-flight signal whose body is present, with
`retry=true` and retries remaining, increments `retry_count` to `k`,
rewrites the body, re-adds the id with score
`LOW · 10¹² + (now + min(2^k, 60))`, removes the id from the processing
set, and returns `true`. -/
theorem queue_fail_retry_backoff (st : RedisState) (id err iso : String)
    (now : ℚ) (sig : QueuedSignal)
    (hproc : id ∈ st.processing)
    (hbody : getKey st.bodies id = some sig)
    (hretry : sig.retry_count < sig.max_retries) :
    (fail st id err true now iso).1 = true ∧
    getKey (fail st id err true now iso).2.bodies id =
      some { sig with retry_count := sig.retry_count + 1 } ∧
    getKey (fail st id err true now iso).2.queue id =
      some ((QueuePriorityLOW : ℚ) * 10 ^ 12 +
        (now + ((min (2 ^ (sig.retry_count + 1)) 60 : ℕ) : ℚ))) ∧
    id ∉ (fail st id err true now iso).2.processing := by
  refine ⟨?_, ?_, ?_, ?_⟩ <;>
    simp [fail, hbody, hretry, getKey_setKey, getKey_zadd, List.mem_filter]

/-- Keyspace for the C3 witness: `wSigA`, already retried once, in flight. -/
def c3State : RedisState :=
  { emptyRedis with
    processing := ["sig-a"]
    bodies := [("sig-a", { wSigA with retry_count := 1 })] }

/-- Closed witness for C3: the second retry is delayed `min(2², 60) = 4`
seconds at LOW priority. -/
theorem queue_fail_retry_backoff_witness :
    "sig-a" ∈ c3State.processing ∧
    getKey c3State.bodies "sig-a" = some { wSigA with retry_count := 1 } ∧
    (1 : ℕ) < 3 ∧
    ((fail c3State "sig-a" "boom" true 1000 "t3").1 = true ∧
      getKey (fail c3State "sig-a" "boom" true 1000 "t3").2.bodies "sig-a" =
        some { wSigA with retry_count := 2 } ∧
      getKey (fail c3State "sig-a" "boom" true 1000 "t3").2.queue "sig-a" =
        some ((QueuePriorityLOW : ℚ) * 10 ^ 12 + (1000 + ((4 : ℕ) : ℚ))) ∧
      "sig-a" ∉ (fail c3State "sig-a" "boom" true 1000 "t3").2.processing) :=
  ⟨by decide, by decide, by decide,
    queue_fail_retry_backoff c3State "sig-a" "boom" "t3" 1000
      { wSigA with retry_count := 1 } (by decide) (by decide) (by decide)⟩

/-- C9: an enqueue whose dedup marker already exists returns `false` and
leaves the entire keyspace unchanged — no dedup rewrite, no body write, no
queue entry. -/
theorem enqueue_dedup_no_writes (st : RedisState) (signal : QueuedSignal)
    (k : String) (now : ℚ) (iso : String)
    (hdk : (getKey st.dedup k).isSome) :
    enqueue st signal (some k) now iso = (false, st) := by
  simp [enqueue, hdk]

/-- Keyspace for the C9 witness: marker `dedup:u1:BTCUSDT:long_entry`
present. -/
def c9State : RedisState :=
  { emptyRedis with dedup := [("u1:BTCUSDT:long_entry", "earlier-sig")] }

/-- Closed witness for C9. -/
theorem enqueue_dedup_no_writes_witness :
    (getKey c9State.dedup "u1:BTCUSDT:long_entry").isSome ∧
    enqueue c9State wSigB (some "u1:BTCUSDT:long_entry") 77 "t4" =
      (false, c9State) :=
  ⟨by decide,
    enqueue_dedup_no_writes c9State wSigB "u1:BTCUSDT:long_entry" 77 "t4"
      (by decide)⟩

/-- C4 counterexample: when `get_positions` returns an empty list the exit
path fails with error `"No open position for <symbol>"`, not
`"No <side> position for <symbol>"`, and the worker handles the resulting
`FAILED` status with `queue.fail(retry=true)`, not `retry=false`. -/
theorem exit_no_position_counterexample :
    execute_exit_check [] true "BTCUSDT" =
      some (.FAILED, "No open position for BTCUSDT") ∧
    ("No open position for BTCUSDT" : String) ≠
      "No long position for BTCUSDT" ∧
    handle_result .FAILED = .failRetry ∧
    WorkerAction.failRetry ≠ WorkerAction.failNoRetry :=
  ⟨rfl, by decide, rfl, by decide⟩

/-- C4 (amended): an exit with no matching-side position among a non-empty
position list fails with `"No <side> position for <symbol>"`; with an
empty list it fails with `"No open position for <symbol>"`; in both cases
the status is FAILED, which the worker fails with `retry=true`. -/
theorem exit_no_position_amended (positions : List Position)
    (is_long : Bool) (symbol : String) :
    (positions = [] → execute_exit_check positions is_long symbol =
      some (.FAILED, "No open position for " ++ symbol)) ∧
    (positions ≠ [] →
      positions.find? (fun pos => pos.side.value =
        (if is_long then "long" else "short")) = none →
      execute_exit_check positions is_long symbol =
        some (.FAILED, "No " ++ (if is_long then "long" else "short") ++
          " position for " ++ symbol)) ∧
    handle_result .FAILED = .failRetry := by
  refine ⟨fun h => ?_, fun h hf => ?_, rfl⟩
  · simp [execute_exit_check, h]
  · simp [execute_exit_check, h, hf]

/-- A single short BTCUSDT position, for the C4 witness. -/
def c4Positions : List Position :=
  [{ symbol := "BTCUSDT", side := .short, quantity := 1, entry_price := 5 }]

/-- Closed witness for the C4 amended theorem: a long exit against a list
holding only a short position fails with the side-specific message. -/
theorem exit_no_position_amended_witness :
    c4Positions ≠ [] ∧
    c4Positions.find? (fun pos => pos.side.value =
      (if true then "long" else "short")) = none ∧
    execute_exit_check c4Positions true "BTCUSDT" =
      some (.FAILED, "No " ++ (if true then "long" else "short") ++
        " position for " ++ "BTCUSDT") :=
  ⟨by decide, by decide,
    (exit_no_position_amended c4Positions true "BTCUSDT").2.1
      (by decide) (by decide)⟩

/-- C5 counterexample: the executor maps venue status CANCELED to
execution status CANCELED, not FAILED as the claim states. -/
theorem map_order_status_canceled_counterexample :
    map_order_status .CANCELED = .CANCELED ∧
    ExecutionStatus.CANCELED ≠ ExecutionStatus.FAILED :=
  ⟨rfl, by decide⟩

/-- C5 (amended): the full status table — FILLED→FILLED,
PARTIALLY_FILLED→PARTIALLY_FILLED, OPEN→EXECUTING, PENDING→PENDING,
CANCELED→CANCELED, FAILED→FAILED; every venue status is mapped explicitly,
so the FAILED fallback of the lookup is unreachable. -/
theorem map_order_status_table :
    map_order_status .FILLED = .FILLED ∧
    map_order_status .PARTIALLY_FILLED = .PARTIALLY_FILLED ∧
    map_order_status .OPEN = .EXECUTING ∧
    map_order_status .PENDING = .PENDING ∧
    map_order_status .CANCELED = .CANCELED ∧
    map_order_status .FAILED = .FAILED :=
  ⟨rfl, rfl, rfl, rfl, rfl, rfl⟩

/-- C6 counterexample: a payload with a 5-byte secret against an unknown
strategy id is rejected with 404, not 401 — the handler looks the strategy
up before checking the secret format. -/
theorem webhook_short_secret_counterexample :
    ("short" : String).length < 16 ∧
    receive_signal_auth none "short" true = .error 404 ∧
    (404 : ℕ) ≠ 401 :=
  ⟨by decide, rfl, by decide⟩

/-- C6 (amended): a short secret is rejected with 401 only when the
strategy exists and is active; an unknown strategy yields 404 and an
inactive one 400, regardless of the secret. -/
theorem webhook_short_secret_amended (strategy : Option Strategy)
    (secret : String) (valid : Bool) (hlen : secret.length < 16) :
    (strategy = none →
      receive_signal_auth strategy secret valid = .error 404) ∧
    (∀ s, strategy = some s → s.is_active = false →
      receive_signal_auth strategy secret valid = .error 400) ∧
    (∀ s, strategy = some s → s.is_active = true →
      receive_signal_auth strategy secret valid = .error 401) := by
  refine ⟨fun h => ?_, fun s hs hact => ?_, fun s hs hact => ?_⟩
  · rw [h]; rfl
  · rw [hs]; simp [receive_signal_auth, hact]
  · rw [hs]; simp [receive_signal_auth, hact, hlen]

/-- An active strategy row for the C6 witness. -/
def c6Strategy : Strategy :=
  { id := "s1", webhook_token := "T0123456789abcdef", exchange := "binance",
    is_active := true }

/-- Closed witness for the C6 amended theorem: with an existing active
strategy, the 5-byte secret is rejected with 401. -/
theorem webhook_short_secret_amended_witness :
    ("short" : String).length < 16 ∧
    c6Strategy.is_active = true ∧
    receive_signal_auth (some c6Strategy) "short" true = .error 401 :=
  ⟨by decide, rfl,
    (webhook_short_secret_amended (some c6Strategy) "short" true
      (by decide)).2.2 c6Strategy rfl rfl⟩

end JadeTrade
